import Mathlib

/-! Control-plane machine set operator: OpenStack failure domains and status reconciliation.

A shallow embedding of

* `pkg/machineproviders/providers/openshift/machine/v1beta1/providerconfig/openstack.go`
  (`InjectFailureDomain`, `findSubnetByUUID`, `findSubnetByName`, `ExtractFailureDomain`,
  `newOpenStackProviderConfig`), and
* `pkg/controllers/controlplanemachineset/status.go` (`updateControlPlaneMachineSetStatus`,
  `reconcileStatusWithMachineInfo`),

followed by the properties established about them.

Go strings are `String`, Go slices are `List` (an `append` never writes below the length of
the slice it extends, so the list a caller still holds is unchanged by it), and the one pointer
the embedded functions dereference, `OpenstackProviderSpec.RootVolume`, is an address into an
explicit store of root volumes.  A Go call that panics on a nil pointer returns `none`.
-/

set_option autoImplicit false

namespace CPMS

/-! ## Data model -/

/-- Modelled from the spec: the vendored declaration `machinev1alpha1.SubnetFilter` is not among
the sources; it carries the fields the sources set (`Name`, `Tags`), all plain strings. -/
structure SubnetFilter where
  Name : String := ""
  Tags : String := ""
deriving DecidableEq, Repr

/-- Modelled from the spec: the vendored declaration `machinev1alpha1.SubnetParam` is not among
the sources; a subnet reference is a UUID and/or a name filter, the two fields the sources read
and write. -/
structure SubnetParam where
  UUID : String := ""
  Filter : SubnetFilter := {}
deriving DecidableEq, Repr

/-- Modelled from the spec: the vendored declaration `machinev1alpha1.Filter` (the network
filter) is not among the sources, which only ever build its zero value `Filter{}`. -/
structure Filter where
  Name : String := ""
  Tags : String := ""
deriving DecidableEq, Repr

/-- Modelled from the spec: the vendored declaration `machinev1alpha1.NetworkParam` is not among
the sources; it carries the two fields the sources set, the network filter and the subnet
list. -/
structure NetworkParam where
  Filter : Filter := {}
  Subnets : List SubnetParam := []
deriving DecidableEq, Repr

/-- Modelled from the spec: the vendored declaration `machinev1alpha1.RootVolume` is not among
the sources; `Zone` is the field the sources use, `VolumeType` and `Size` (a Go `int`) stand
for the rest of the volume description. -/
structure RootVolume where
  VolumeType : String := ""
  Size : Int := 0
  Zone : String := ""
deriving DecidableEq, Repr

/-- Modelled from the spec: the vendored declaration `machinev1alpha1.SecurityGroupParam` is not
among the sources; the test builder sets its `Name`. -/
structure SecurityGroupParam where
  Name : String := ""
deriving DecidableEq, Repr

/-- An address of a root volume in the store. -/
abbrev Addr := Nat

/-- The store of root volumes: what every non-nil `*RootVolume` points to. -/
abbrev Heap := Addr → RootVolume

/-- Writing a root volume at an address. -/
def Heap.store (h : Heap) (a : Addr) (v : RootVolume) : Heap :=
  fun b => if b = a then v else h b

/-- Modelled from the spec: the vendored declaration `machinev1alpha1.OpenstackProviderSpec` is
not among the sources; it carries the fields the sources read or set (`openstack.go` and the
test builder `OpenStackProviderSpecBuilder.Build`).  `RootVolume` is a Go pointer
(`*RootVolume`): `none` is nil, `some a` points to the root volume stored at `a`.
`UserDataSecret` is a pointer that is never written through, kept as the name it refers to. -/
structure OpenstackProviderSpec where
  APIVersion : String := ""
  Kind : String := ""
  CloudName : String := ""
  Flavor : String := ""
  Image : String := ""
  Networks : List NetworkParam := []
  AvailabilityZone : String := ""
  SecurityGroups : List SecurityGroupParam := []
  UserDataSecret : Option String := none
  Trunk : Bool := false
  Tags : List String := []
  ServerMetadata : List (String × String) := []
  ServerGroupName : String := ""
  RootVolume : Option Addr := none
  PrimarySubnet : String := ""
deriving DecidableEq, Repr

/-- Modelled from the spec: the vendored declaration `machinev1.OpenStackFailureDomain` is not
among the sources; it carries the three fields `openstack.go` reads and writes. -/
structure OpenStackFailureDomain where
  ComputeZone : String := ""
  StorageZone : String := ""
  Subnet : SubnetParam := {}
deriving DecidableEq, Repr

/-- The provider spec of an OpenStack Machine (`openstack.go`, `OpenStackProviderConfig`). -/
structure OpenStackProviderConfig where
  providerConfig : OpenstackProviderSpec := {}
deriving DecidableEq, Repr

/-! ## `openstack.go` -/

/-- The inner loop of `findSubnetByUUID`: the first subnet of one network with the UUID. -/
def findSubnetByUUID.inNetwork (subnets : List SubnetParam) (subnetUUID : String) :
    Option SubnetParam :=
  match subnets with
  | [] => none
  | subnet :: rest =>
    if subnet.UUID = subnetUUID then some subnet
    else findSubnetByUUID.inNetwork rest subnetUUID

/-- The function `findSubnetByUUID`: networks in order, subnets in order within each, the first
subnet whose UUID is the one asked for; an error when the loops run out. -/
def findSubnetByUUID (networks : List NetworkParam) (subnetUUID : String) :
    Except String SubnetParam :=
  match networks with
  | [] => .error ("Primary subnet " ++ subnetUUID ++ " not specified on machine")
  | network :: rest =>
    match findSubnetByUUID.inNetwork network.Subnets subnetUUID with
    | some subnet => .ok subnet
    | none => findSubnetByUUID rest subnetUUID

/-- The inner loop of `findSubnetByName`: the first subnet of one network with the filter
name. -/
def findSubnetByName.inNetwork (subnets : List SubnetParam) (subnetName : String) :
    Option SubnetParam :=
  match subnets with
  | [] => none
  | subnet :: rest =>
    if subnet.Filter.Name = subnetName then some subnet
    else findSubnetByName.inNetwork rest subnetName

/-- The function `findSubnetByName`: as `findSubnetByUUID`, on the filter name. -/
def findSubnetByName (networks : List NetworkParam) (subnetName : String) :
    Except String SubnetParam :=
  match networks with
  | [] => .error ("Primary subnet " ++ subnetName ++ " not specified on machine")
  | network :: rest =>
    match findSubnetByName.inNetwork network.Subnets subnetName with
    | some subnet => .ok subnet
    | none => findSubnetByName rest subnetName

/-- Whether a lookup returned `err == nil`. -/
def errIsNil {α : Type} (r : Except String α) : Bool :=
  match r with
  | .ok _ => true
  | .error _ => false

/-- The assignment `cfg.RootVolume.Zone = zone` through the pointer: a nil pointer panics
(`none`), otherwise the pointed-to root volume is updated in the store. -/
def setRootVolumeZone (h : Heap) (p : Option Addr) (zone : String) : Option Heap :=
  match p with
  | none => none
  | some a => some (h.store a { h a with Zone := zone })

/-- The read `cfg.RootVolume.Zone` through the pointer: a nil pointer panics (`none`). -/
def getRootVolumeZone (h : Heap) (p : Option Addr) : Option String :=
  match p with
  | none => none
  | some a => some (h a).Zone

/-- The method `OpenStackProviderConfig.InjectFailureDomain`, statement by statement.
The receiver `o` is a struct value, so `newOpenstackProviderConfig := o` copies its fields; the
copy of the `RootVolume` field is the same pointer.  The result is the returned config and the
store after the call, or `none` when the call panics. -/
def InjectFailureDomain (h : Heap) (o : OpenStackProviderConfig) (fd : OpenStackFailureDomain) :
    Option (OpenStackProviderConfig × Heap) :=
  let new0 : OpenStackProviderConfig := o
  let new1 : OpenStackProviderConfig :=
    { providerConfig := { new0.providerConfig with AvailabilityZone := fd.ComputeZone } }
  match setRootVolumeZone h new1.providerConfig.RootVolume fd.StorageZone with
  | none => none
  | some h1 =>
    let new2 : OpenStackProviderConfig :=
      if fd.Subnet.UUID ≠ "" then
        if errIsNil (findSubnetByUUID o.providerConfig.Networks fd.Subnet.UUID) then
          { providerConfig := { new1.providerConfig with
              Networks := new1.providerConfig.Networks ++
                [{ Filter := {}, Subnets := [{ UUID := fd.Subnet.UUID }] }] } }
        else new1
      else new1
    let new3 : OpenStackProviderConfig :=
      if fd.Subnet.Filter.Name ≠ "" then
        if errIsNil (findSubnetByName o.providerConfig.Networks fd.Subnet.Filter.Name) then
          { providerConfig := { new2.providerConfig with
              Networks := new2.providerConfig.Networks ++
                [{ Filter := {}, Subnets := [{ Filter := fd.Subnet.Filter }] }] } }
        else new2
      else new2
    some (new3, h1)

/-- The method `OpenStackProviderConfig.ExtractFailureDomain`; `none` when the read of
`RootVolume.Zone` panics on a nil pointer. -/
def ExtractFailureDomain (h : Heap) (o : OpenStackProviderConfig) :
    Option OpenStackFailureDomain :=
  match getRootVolumeZone h o.providerConfig.RootVolume with
  | none => none
  | some zone =>
    let fd : OpenStackFailureDomain :=
      { ComputeZone := o.providerConfig.AvailabilityZone, StorageZone := zone }
    if o.providerConfig.PrimarySubnet ≠ "" then
      some { fd with Subnet := { UUID := o.providerConfig.PrimarySubnet } }
    else
      match o.providerConfig.Networks with
      | network :: _ =>
        match network.Subnets with
        | subnet :: _ => some { fd with Subnet := subnet }
        | [] => some fd
      | [] => some fd

/-- The method `OpenStackProviderConfig.Config`. -/
def Config (o : OpenStackProviderConfig) : OpenstackProviderSpec :=
  o.providerConfig

/-! ## `status.go` -/

/-- Modelled from the spec: the declaration `machineproviders.MachineInfo` is not among the
sources; the fields are those of the data model (index, machineRef, nodeRef, ready,
needsUpdate, failureDomain, errored). -/
structure MachineInfo where
  Index : Int := 0
  MachineRef : Option String := none
  NodeRef : Option String := none
  Ready : Bool := false
  NeedsUpdate : Bool := false
  FailureDomain : OpenStackFailureDomain := {}
  Errored : Option String := none
deriving DecidableEq, Repr

/-- Modelled from the spec: the vendored condition type is not among the sources; a condition
is `type`, `status`, `reason`, `message`, `lastTransitionTime` (`type` is a keyword, hence
`ConditionType`). -/
structure Condition where
  ConditionType : String := ""
  Status : String := ""
  Reason : String := ""
  Message : String := ""
  LastTransitionTime : Nat := 0
deriving DecidableEq, Repr

/-- Modelled from the spec: the vendored declaration `machinev1.ControlPlaneMachineSetStatus` is
not among the sources; the status block is `observedGeneration`, `replicas`, `readyReplicas`,
`updatedReplicas`, `unavailableReplicas` and the list of conditions. -/
structure ControlPlaneMachineSetStatus where
  ObservedGeneration : Int := 0
  Replicas : Int := 0
  ReadyReplicas : Int := 0
  UpdatedReplicas : Int := 0
  UnavailableReplicas : Int := 0
  Conditions : List Condition := []
deriving DecidableEq, Repr

/-- Modelled from the spec: the vendored declaration `machinev1.ControlPlaneMachineSet` is not
among the sources; it is the generation of the resource, the desired replica count, the
provider-typed machine template and the status block. -/
structure ControlPlaneMachineSet where
  Generation : Int := 0
  Replicas : Int := 0
  TemplateProviderType : String := ""
  Template : OpenStackProviderConfig := {}
  Status : ControlPlaneMachineSetStatus := {}
deriving DecidableEq, Repr

/-- The function `reconcileStatusWithMachineInfo`.  It receives the ControlPlaneMachineSet by
pointer and returns an error; the result here is the ControlPlaneMachineSet after the call and
the returned error (`none` is nil).  The body is the single statement `return nil`: the logger
is not used and nothing is written through `cpms`. -/
def reconcileStatusWithMachineInfo (cpms : ControlPlaneMachineSet)
    (machineInfos : List MachineInfo) : ControlPlaneMachineSet × Option String :=
  let _ := machineInfos
  (cpms, none)

/-- Modelled from the spec: the declaration `ControlPlaneMachineSetReconciler` and the client it
writes through are not among the sources; what a call can do to the outside is recorded here:
the status patches issued to the status subresource and the lines logged. -/
structure ControlPlaneMachineSetReconciler where
  StatusPatches : List ControlPlaneMachineSetStatus := []
  Logged : List String := []
deriving DecidableEq, Repr

/-- The log message `updatingStatus`. -/
def updatingStatus : String := "Updating control plane machine set status"

/-- The log message `notUpdatingStatus`. -/
def notUpdatingStatus : String := "No update to control plane machine set status required"

/-- The method `updateControlPlaneMachineSetStatus`.  The patch base (a `client.Patch`)
is the ControlPlaneMachineSet as it was fetched.  The result is the reconciler after the call
and the returned error (`none` is nil).  The body is a comment and the single statement
`return nil`: neither the client nor the logger is used. -/
def updateControlPlaneMachineSetStatus (r : ControlPlaneMachineSetReconciler)
    (cpms : ControlPlaneMachineSet) (patchBase : ControlPlaneMachineSet) :
    ControlPlaneMachineSetReconciler × Option String :=
  let _ := cpms
  let _ := patchBase
  (r, none)

/-! ## Decoding a provider spec (`newOpenStackProviderConfig`) -/

/-- A JSON document; a number is one written without fraction and exponent. -/
inductive Json where
  | obj (members : List (String × Json))
  | arr (elems : List Json)
  | str (text : String)
  | num (value : Int)
  | bool (flag : Bool)
  | null

/-- Modelled from the spec: the vendored declaration `runtime.RawExtension` is not among the
sources; `Raw` holds the bytes of a serialized document, kept here as the JSON document they
spell, `none` when they are not valid JSON. -/
structure RawExtension where
  Raw : Option Json := none

/-- Modelled from the spec: the declaration of `providerConfig`, the `ProviderConfig` that
`newOpenStackProviderConfig` builds, is not among the sources; it is the platform type and the
OpenStack config. -/
structure ProviderConfig where
  platformType : String := ""
  openstack : OpenStackProviderConfig := {}
deriving DecidableEq, Repr

/-- Modelled from the spec: the vendored constant `v1.OpenStackPlatformType` is not among the
sources. -/
def OpenStackPlatformType : String := "OpenStack"

/-- The case folding of one character of an object key, as far as it can reach an ASCII field
name: an ASCII capital goes to its small letter, and the two other characters that fold to an
ASCII letter, the Kelvin sign (U+212A, to `k`) and the long s (U+017F, to `s`), go to it. -/
def foldChar (c : Char) : Char :=
  if c.toNat = 0x212A then 'k'
  else if c.toNat = 0x017F then 's'
  else Char.toLower c

/-- Object keys are matched to struct fields under case folding: a key names the field whose
(lower-case ASCII) JSON name is the folded key. -/
def foldKey (k : String) : String :=
  String.mk (k.data.map foldChar)

/-- Decoding into a Go `string`: a JSON string is stored, `null` leaves the value as it is, any
other document is a type error. -/
def unmarshalString (cur : String) (j : Json) : Except String String :=
  match j with
  | .str s => .ok s
  | .null => .ok cur
  | _ => .error "json: cannot unmarshal into Go value of type string"

/-- Decoding into a Go `bool`. -/
def unmarshalBool (cur : Bool) (j : Json) : Except String Bool :=
  match j with
  | .bool b => .ok b
  | .null => .ok cur
  | _ => .error "json: cannot unmarshal into Go value of type bool"

/-- Decoding into a Go `int` (64 bits): a number within the range of the type is stored,
negative ones included, a number outside it is an error, `null` leaves the value as it is, any
other document is a type error. -/
def unmarshalInt (cur : Int) (j : Json) : Except String Int :=
  match j with
  | .num n =>
    if -9223372036854775808 ≤ n ∧ n ≤ 9223372036854775807 then .ok n
    else .error "json: cannot unmarshal number into Go value of type int"
  | .null => .ok cur
  | _ => .error "json: cannot unmarshal into Go value of type int"

/-- Decoding into a Go slice: a JSON array is decoded element by element, `null` gives the nil
slice, any other document is a type error. -/
def unmarshalSlice {α : Type} (elem : Json → Except String α) (j : Json) :
    Except String (List α) :=
  match j with
  | .arr elems => elems.mapM elem
  | .null => .ok []
  | _ => .error "json: cannot unmarshal into Go value of slice type"

/-- Decoding into a Go struct: the members of a JSON object are taken in order, each is handed
to the field its key names, and a key that names no field is ignored; a field no key names
keeps its value; `null` leaves the struct as it is; any other document is a type error. -/
def unmarshalStruct {α : Type} (setField : α → String → Json → Except String α) (cur : α)
    (j : Json) : Except String α :=
  match j with
  | .obj members =>
    members.foldlM (fun acc member => setField acc (foldKey member.1) member.2) cur
  | .null => .ok cur
  | _ => .error "json: cannot unmarshal into Go value of struct type"

/-- The fields of `SubnetFilter` by JSON key. -/
def SubnetFilter.setField (cur : SubnetFilter) (key : String) (j : Json) :
    Except String SubnetFilter :=
  if key = "name" then (fun s => { cur with Name := s }) <$> unmarshalString cur.Name j
  else if key = "tags" then (fun s => { cur with Tags := s }) <$> unmarshalString cur.Tags j
  else .ok cur

/-- The fields of `SubnetParam` by JSON key. -/
def SubnetParam.setField (cur : SubnetParam) (key : String) (j : Json) :
    Except String SubnetParam :=
  if key = "uuid" then (fun s => { cur with UUID := s }) <$> unmarshalString cur.UUID j
  else if key = "filter" then
    (fun f => { cur with Filter := f }) <$> unmarshalStruct SubnetFilter.setField cur.Filter j
  else .ok cur

/-- The fields of the network `Filter` by JSON key. -/
def Filter.setField (cur : Filter) (key : String) (j : Json) : Except String Filter :=
  if key = "name" then (fun s => { cur with Name := s }) <$> unmarshalString cur.Name j
  else if key = "tags" then (fun s => { cur with Tags := s }) <$> unmarshalString cur.Tags j
  else .ok cur

/-- The fields of `NetworkParam` by JSON key. -/
def NetworkParam.setField (cur : NetworkParam) (key : String) (j : Json) :
    Except String NetworkParam :=
  if key = "filter" then
    (fun f => { cur with Filter := f }) <$> unmarshalStruct Filter.setField cur.Filter j
  else if key = "subnets" then
    (fun l => { cur with Subnets := l }) <$>
      unmarshalSlice (unmarshalStruct SubnetParam.setField {}) j
  else .ok cur

/-- The fields of `SecurityGroupParam` by JSON key. -/
def SecurityGroupParam.setField (cur : SecurityGroupParam) (key : String) (j : Json) :
    Except String SecurityGroupParam :=
  if key = "name" then (fun s => { cur with Name := s }) <$> unmarshalString cur.Name j
  else .ok cur

/-- The fields of `RootVolume` by JSON key. -/
def RootVolume.setField (cur : RootVolume) (key : String) (j : Json) :
    Except String RootVolume :=
  if key = "volumetype" then
    (fun s => { cur with VolumeType := s }) <$> unmarshalString cur.VolumeType j
  else if key = "disksize" then (fun n => { cur with Size := n }) <$> unmarshalInt cur.Size j
  else if key = "availabilityzone" then
    (fun s => { cur with Zone := s }) <$> unmarshalString cur.Zone j
  else .ok cur

/-- The `name` of a secret reference, the part of `UserDataSecret` that is kept. -/
def secretName.setField (cur : String) (key : String) (j : Json) : Except String String :=
  if key = "name" then unmarshalString cur j else .ok cur

/-- Setting a key of a Go map: the entry the key had, if any, is replaced. -/
def setMapEntry (m : List (String × String)) (k v : String) : List (String × String) :=
  m.filter (fun entry => decide (entry.1 ≠ k)) ++ [(k, v)]

/-- Decoding into a Go `map[string]string`: the members of a JSON object are taken in order
and set in the map, so a repeated key keeps its last value and the entries the map already has
under other keys stay; `null` gives the nil map; any other document is a type error. -/
def unmarshalStringMap (cur : List (String × String)) (j : Json) :
    Except String (List (String × String)) :=
  match j with
  | .obj members =>
    members.foldlM
      (fun acc member => (fun s => setMapEntry acc member.1 s) <$> unmarshalString "" member.2)
      cur
  | .null => .ok []
  | _ => .error "json: cannot unmarshal into Go value of map type"

/-- Modelled from the spec: the JSON keys of `machinev1alpha1.OpenstackProviderSpec` come with
its vendored declaration, which is not among the sources.  The fields of the provider spec by
JSON key; the spec is decoded together with the store, because a `rootVolume` object is decoded
into the root volume the pointer refers to, allocated at `fresh` when the pointer is nil. -/
def OpenstackProviderSpec.setField (fresh : Addr) (cur : OpenstackProviderSpec × Heap)
    (key : String) (j : Json) : Except String (OpenstackProviderSpec × Heap) :=
  let spec := cur.1
  let h := cur.2
  if key = "apiversion" then
    (fun s => ({ spec with APIVersion := s }, h)) <$> unmarshalString spec.APIVersion j
  else if key = "kind" then
    (fun s => ({ spec with Kind := s }, h)) <$> unmarshalString spec.Kind j
  else if key = "cloudname" then
    (fun s => ({ spec with CloudName := s }, h)) <$> unmarshalString spec.CloudName j
  else if key = "flavor" then
    (fun s => ({ spec with Flavor := s }, h)) <$> unmarshalString spec.Flavor j
  else if key = "image" then
    (fun s => ({ spec with Image := s }, h)) <$> unmarshalString spec.Image j
  else if key = "networks" then
    (fun l => ({ spec with Networks := l }, h)) <$>
      unmarshalSlice (unmarshalStruct NetworkParam.setField {}) j
  else if key = "availabilityzone" then
    (fun s => ({ spec with AvailabilityZone := s }, h)) <$>
      unmarshalString spec.AvailabilityZone j
  else if key = "securitygroups" then
    (fun l => ({ spec with SecurityGroups := l }, h)) <$>
      unmarshalSlice (unmarshalStruct SecurityGroupParam.setField {}) j
  else if key = "userdatasecret" then
    match j with
    | .null => .ok ({ spec with UserDataSecret := none }, h)
    | _ =>
      (fun s => ({ spec with UserDataSecret := some s }, h)) <$>
        unmarshalStruct secretName.setField (spec.UserDataSecret.getD "") j
  else if key = "trunk" then
    (fun b => ({ spec with Trunk := b }, h)) <$> unmarshalBool spec.Trunk j
  else if key = "tags" then
    (fun l => ({ spec with Tags := l }, h)) <$> unmarshalSlice (unmarshalString "") j
  else if key = "servermetadata" then
    (fun l => ({ spec with ServerMetadata := l }, h)) <$>
      unmarshalStringMap spec.ServerMetadata j
  else if key = "servergroupname" then
    (fun s => ({ spec with ServerGroupName := s }, h)) <$>
      unmarshalString spec.ServerGroupName j
  else if key = "rootvolume" then
    match j with
    | .null => .ok ({ spec with RootVolume := none }, h)
    | _ =>
      match spec.RootVolume with
      | some a =>
        (fun v => (spec, h.store a v)) <$> unmarshalStruct RootVolume.setField (h a) j
      | none =>
        (fun v => ({ spec with RootVolume := some fresh }, h.store fresh v)) <$>
          unmarshalStruct RootVolume.setField {} j
  else if key = "primarysubnet" then
    (fun s => ({ spec with PrimarySubnet := s }, h)) <$> unmarshalString spec.PrimarySubnet j
  else .ok cur

/-- The call `json.Unmarshal(raw.Raw, &openstackProviderSpec)` on a zero-value provider spec:
bytes that are not valid JSON are an error, a valid document is decoded into the struct. -/
def jsonUnmarshal (h : Heap) (fresh : Addr) (data : Option Json) :
    Except String (OpenstackProviderSpec × Heap) :=
  match data with
  | none => .error "invalid character looking for beginning of value"
  | some j => unmarshalStruct (OpenstackProviderSpec.setField fresh) ({}, h) j

/-- The function `newOpenStackProviderConfig`, for a non-nil `raw`: the error of the decoding,
wrapped, or the `ProviderConfig` of platform type OpenStack holding the decoded provider spec
(together with the store after the decoding). -/
def newOpenStackProviderConfig (h : Heap) (fresh : Addr) (raw : RawExtension) :
    Except String (ProviderConfig × Heap) :=
  match jsonUnmarshal h fresh raw.Raw with
  | .error err => .error ("could not unmarshal provider spec: " ++ err)
  | .ok (openstackProviderSpec, h1) =>
    let openstackProviderConfig : OpenStackProviderConfig :=
      { providerConfig := openstackProviderSpec }
    let config : ProviderConfig :=
      { platformType := OpenStackPlatformType, openstack := openstackProviderConfig }
    .ok (config, h1)

/-! ## Vocabulary of the properties -/

/-- The subnets of all networks, in traversal order. -/
def allSubnets (networks : List NetworkParam) : List SubnetParam :=
  networks.flatMap (fun network => network.Subnets)

/-- How many subnet entries, across all networks, carry the UUID. -/
def countSubnetsWithUUID (networks : List NetworkParam) (u : String) : Nat :=
  (allSubnets networks).countP (fun subnet => subnet.UUID = u)

/-- The network entries one call of `InjectFailureDomain` puts behind the receiver's
networks: one for the UUID when the UUID lookup succeeds, then one for the name filter when the
name lookup succeeds. -/
def appendedNetworks (networks : List NetworkParam) (fd : OpenStackFailureDomain) :
    List NetworkParam :=
  (if fd.Subnet.UUID ≠ "" ∧ errIsNil (findSubnetByUUID networks fd.Subnet.UUID) = true then
      [{ Filter := {}, Subnets := [{ UUID := fd.Subnet.UUID }] }]
    else []) ++
  (if fd.Subnet.Filter.Name ≠ "" ∧
        errIsNil (findSubnetByName networks fd.Subnet.Filter.Name) = true then
      [{ Filter := {}, Subnets := [{ Filter := fd.Subnet.Filter }] }]
    else [])

/-- The subnet `ExtractFailureDomain` reports for a provider spec: the primary subnet when it
is set, else the first subnet of the first network, else the zero value. -/
def extractedSubnet (cfg : OpenstackProviderSpec) : SubnetParam :=
  if cfg.PrimarySubnet ≠ "" then { UUID := cfg.PrimarySubnet }
  else
    match cfg.Networks with
    | network :: _ =>
      match network.Subnets with
      | subnet :: _ => subnet
      | [] => {}
    | [] => {}

/-- The distinct indices that have at least one machine reporting ready. -/
def readyIndices (machineInfos : List MachineInfo) : List Int :=
  ((machineInfos.filter (fun m => m.Ready)).map (fun m => m.Index)).dedup

/-- Two configs built from the same template: equal in every field except the placement fields
`AvailabilityZone`, `RootVolume.Zone` and `Networks`. -/
def sameTemplate (h : Heap) (c t : OpenStackProviderConfig) : Prop :=
  ({ c.providerConfig with AvailabilityZone := "", Networks := [], RootVolume := none } :
      OpenstackProviderSpec) =
    { t.providerConfig with AvailabilityZone := "", Networks := [], RootVolume := none } ∧
  c.providerConfig.RootVolume.map (fun a => ({ h a with Zone := "" } : RootVolume)) =
    t.providerConfig.RootVolume.map (fun a => ({ h a with Zone := "" } : RootVolume))

instance (h : Heap) (c t : OpenStackProviderConfig) : Decidable (sameTemplate h c t) := by
  unfold sameTemplate; infer_instance

/-! ## Sample values -/

/-- A store in which every root volume is the zero value. -/
def emptyHeap : Heap := fun _ => {}

/-- A store whose root volume at address 0 lies in zone `az1`. -/
def heapAz1 : Heap := emptyHeap.store 0 { Zone := "az1" }

/-- A network entry with one subnet given by UUID. -/
def networkOfUUID (u : String) : NetworkParam :=
  { Filter := {}, Subnets := [{ UUID := u }] }

/-- A config with a root volume (at address 0) and one network whose subnet has UUID `s1`. -/
def configWithS1 : OpenStackProviderConfig :=
  { providerConfig := { Networks := [networkOfUUID "s1"], RootVolume := some 0 } }

/-- A config with a root volume (at address 0) and no networks. -/
def configNoNetworks : OpenStackProviderConfig :=
  { providerConfig := { RootVolume := some 0 } }

/-- A config with a root volume (at address 1) and one network whose subnet has UUID `s2`. -/
def configWithS2 : OpenStackProviderConfig :=
  { providerConfig := { Networks := [networkOfUUID "s2"], RootVolume := some 1 } }

/-- The zero-value config: no placement field set, no root volume. -/
def configZero : OpenStackProviderConfig := {}

/-- A config in availability zone `az1` with a root volume (at address 0). -/
def configAz1 : OpenStackProviderConfig :=
  { providerConfig := { AvailabilityZone := "az1", RootVolume := some 0 } }

/-- A failure domain that names the subnet `s1` by UUID. -/
def fdS1 : OpenStackFailureDomain := { Subnet := { UUID := "s1" } }

/-- The empty (zero-value) failure domain. -/
def fdEmpty : OpenStackFailureDomain := {}

/-- A freshly created ControlPlaneMachineSet asking for three replicas: every status count is
zero. -/
def cpmsThree : ControlPlaneMachineSet := { Generation := 1, Replicas := 3 }

/-- A ready machine on an index that does not need an update. -/
def readyMachine (index : Int) (name : String) : MachineInfo :=
  { Index := index, MachineRef := some name, NodeRef := some name, Ready := true }

/-- One ready, up-to-date machine on each of the indices 0, 1 and 2. -/
def machinesAllReady : List MachineInfo :=
  [readyMachine 0 "master-0", readyMachine 1 "master-1", readyMachine 2 "master-2"]

/-- A rollout on index 0: an old machine, ready and needing an update, next to its ready
replacement; one ready machine on each of the indices 1 and 2. -/
def machinesOverlap : List MachineInfo :=
  [{ readyMachine 0 "master-0" with NeedsUpdate := true }, readyMachine 0 "master-replacement-0",
   readyMachine 1 "master-1", readyMachine 2 "master-2"]

/-- No machine on index 1; one ready machine on each of the indices 0 and 2. -/
def machinesMissingIndex : List MachineInfo :=
  [readyMachine 0 "master-0", readyMachine 2 "master-2"]

/-- The distinct indices that have at least one machine that is ready and needs no update. -/
def updatedIndices (machineInfos : List MachineInfo) : List Int :=
  ((machineInfos.filter (fun m => m.Ready && !m.NeedsUpdate)).map (fun m => m.Index)).dedup

/-- The distinct indices that have at least one associated machine (an unowned node has no
machine reference). -/
def machineIndices (machineInfos : List MachineInfo) : List Int :=
  ((machineInfos.filter (fun m => m.MachineRef.isSome)).map (fun m => m.Index)).dedup

/-- A ControlPlaneMachineSet whose computed status reports three ready replicas, fetched when
the status was still zero (`cpmsThree`). -/
def cpmsThreeReady : ControlPlaneMachineSet :=
  { cpmsThree with Status := { ObservedGeneration := 1, Replicas := 3, ReadyReplicas := 3,
                               UpdatedReplicas := 3 } }

/-- The first subnet with the UUID in traversal order: networks in list order, then subnets in
list order within each network. -/
def firstSubnetWithUUID (networks : List NetworkParam) (u : String) : Option SubnetParam :=
  (allSubnets networks).find? (fun subnet => decide (subnet.UUID = u))

/-- A config with a root volume (at address 0) and one network whose subnet has UUID `s1` and
filter name `n1`. -/
def configWithS1N1 : OpenStackProviderConfig :=
  { providerConfig :=
      { Networks := [{ Subnets := [{ UUID := "s1", Filter := { Name := "n1" } }] }],
        RootVolume := some 0 } }

/-- A failure domain that names a subnet both by UUID `s1` and by filter name `n1`. -/
def fdS1N1 : OpenStackFailureDomain := { Subnet := { UUID := "s1", Filter := { Name := "n1" } } }

/-- A config with primary subnet `p1` and no root volume. -/
def configPrimaryNoVolume : OpenStackProviderConfig :=
  { providerConfig := { PrimarySubnet := "p1" } }

/-- A failure domain with its name filter cleared: `Subnet.Filter.Name` set to the empty
string. -/
def clearFilterName (fd : OpenStackFailureDomain) : OpenStackFailureDomain :=
  { fd with Subnet := { fd.Subnet with Filter := { fd.Subnet.Filter with Name := "" } } }

/-- A failure domain with its subnet UUID cleared: `Subnet.UUID` set to the empty string, the
situation in which a name filter would be a fallback. -/
def clearSubnetUUID (fd : OpenStackFailureDomain) : OpenStackFailureDomain :=
  { fd with Subnet := { fd.Subnet with UUID := "" } }

/-- The result of a fallible call as an option: the value when the error is nil. -/
def okValue {α : Type} (r : Except String α) : Option α :=
  match r with
  | .ok a => some a
  | .error _ => none

/-- The payload of `AWSProviderSpec().BuildRawExtension()`: the JSON of the
`AWSMachineProviderConfig` that the builder `AWSProviderSpecBuilder.Build` fills in
(`aws_provider_spec.go`), with the fields the builder leaves at zero that are still written
(`metadata`, `deviceIndex`, `subnet`). -/
def awsProviderSpecRaw : RawExtension :=
  { Raw := some (.obj [
      ("kind", .str "AWSMachineProviderConfig"),
      ("apiVersion", .str "awsproviderconfig.openshift.io/v1beta1"),
      ("metadata", .obj [("creationTimestamp", .null)]),
      ("ami", .obj [("id", .str "aws-ami-12345678")]),
      ("instanceType", .str "m6i.xlarge"),
      ("iamInstanceProfile", .obj [("id", .str "aws-iam-instance-profile-12345678")]),
      ("userDataSecret", .obj [("name", .str "aws-user-data-12345678")]),
      ("credentialsSecret", .obj [("name", .str "aws-cloud-credentials")]),
      ("deviceIndex", .num 0),
      ("securityGroups", .arr [.obj [("filters", .arr [.obj [
          ("name", .str "tag:Name"),
          ("values", .arr [.str "aws-security-group-12345678"])]])]]),
      ("subnet", .obj []),
      ("placement", .obj [("region", .str "us-east-1"),
                          ("availabilityZone", .str "us-east-1a")]),
      ("loadBalancers", .arr [
          .obj [("name", .str "aws-nlb-int"), ("type", .str "network")],
          .obj [("name", .str "aws-nlb-ext"), ("type", .str "network")]]),
      ("blockDevices", .arr [.obj [("ebs", .obj [
          ("encrypted", .bool true), ("volumeSize", .num 120),
          ("volumeType", .str "gp3")])]])]) }

/-- A payload with a field no provider spec has and none of the fields of an OpenStack provider
spec. -/
def unknownFieldRaw : RawExtension :=
  { Raw := some (.obj [("noSuchField", .num 1)]) }

/-! ## Lemmas on `InjectFailureDomain` and `ExtractFailureDomain` -/

/-- With a root volume, `InjectFailureDomain` returns: the receiver with `AvailabilityZone`
overwritten and the appended networks behind its own, and the store with the zone of the (shared)
root volume overwritten. -/
theorem InjectFailureDomain_eq (h : Heap) (o : OpenStackProviderConfig)
    (fd : OpenStackFailureDomain) (a : Addr) (hrv : o.providerConfig.RootVolume = some a) :
    InjectFailureDomain h o fd =
      some ({ providerConfig := { o.providerConfig with
                AvailabilityZone := fd.ComputeZone
                Networks := o.providerConfig.Networks ++
                  appendedNetworks o.providerConfig.Networks fd } },
            h.store a { h a with Zone := fd.StorageZone }) := by
  unfold InjectFailureDomain appendedNetworks
  simp only [hrv, setRootVolumeZone]
  by_cases h1 : fd.Subnet.UUID = "" <;>
  by_cases h2 : fd.Subnet.Filter.Name = "" <;>
  by_cases h3 : errIsNil (findSubnetByUUID o.providerConfig.Networks fd.Subnet.UUID) = true <;>
  by_cases h4 :
    errIsNil (findSubnetByName o.providerConfig.Networks fd.Subnet.Filter.Name) = true <;>
  simp [h1, h2, h3, h4]

/-- Without a root volume, `InjectFailureDomain` panics. -/
theorem InjectFailureDomain_nil (h : Heap) (o : OpenStackProviderConfig)
    (fd : OpenStackFailureDomain) (hrv : o.providerConfig.RootVolume = none) :
    InjectFailureDomain h o fd = none := by
  simp [InjectFailureDomain, hrv, setRootVolumeZone]

/-- With a root volume, `ExtractFailureDomain` returns the availability zone, the zone of the
root volume and the extracted subnet. -/
theorem ExtractFailureDomain_eq (h : Heap) (o : OpenStackProviderConfig) (a : Addr)
    (hrv : o.providerConfig.RootVolume = some a) :
    ExtractFailureDomain h o =
      some { ComputeZone := o.providerConfig.AvailabilityZone
             StorageZone := (h a).Zone
             Subnet := extractedSubnet o.providerConfig } := by
  unfold ExtractFailureDomain extractedSubnet
  simp only [hrv, getRootVolumeZone]
  by_cases hp : o.providerConfig.PrimarySubnet = ""
  · simp only [hp, ne_eq, not_true_eq_false, if_false]
    cases hn : o.providerConfig.Networks with
    | nil => rfl
    | cons network rest =>
      cases hs : network.Subnets with
      | nil => simp [hs]
      | cons subnet rest2 => simp [hs]
  · simp [hp]

/-- Without a root volume, `ExtractFailureDomain` panics. -/
theorem ExtractFailureDomain_nil (h : Heap) (o : OpenStackProviderConfig)
    (hrv : o.providerConfig.RootVolume = none) :
    ExtractFailureDomain h o = none := by
  simp [ExtractFailureDomain, hrv, getRootVolumeZone]

/-- Reading back what was just stored. -/
theorem Heap.store_same (h : Heap) (a : Addr) (v : RootVolume) : (h.store a v) a = v := by
  simp [Heap.store]

/-- The network entries appended for a failure domain are found in the receiver's networks:
nothing is appended to an empty list of networks. -/
theorem appendedNetworks_nil (fd : OpenStackFailureDomain) : appendedNetworks [] fd = [] := by
  simp [appendedNetworks, findSubnetByUUID, findSubnetByName, errIsNil]

/-- Overwriting the availability zone and appending network entries behind a non-empty list of
networks does not change the extracted subnet: the first network stays the first. -/
theorem extractedSubnet_append (cfg : OpenstackProviderSpec) (az : String)
    (l : List NetworkParam) (hne : cfg.Networks ≠ []) :
    extractedSubnet { cfg with AvailabilityZone := az, Networks := cfg.Networks ++ l } =
      extractedSubnet cfg := by
  unfold extractedSubnet
  cases hn : cfg.Networks with
  | nil => exact absurd hn hne
  | cons network rest => simp

/-- With a root volume whose zone is empty, an empty availability zone, no primary subnet and no
network with a subnet, `ExtractFailureDomain` returns the zero-value failure domain. -/
theorem ExtractFailureDomain_zero (h : Heap) (o : OpenStackProviderConfig) (a : Addr)
    (hrv : o.providerConfig.RootVolume = some a)
    (haz : o.providerConfig.AvailabilityZone = "") (hz : (h a).Zone = "")
    (hp : o.providerConfig.PrimarySubnet = "")
    (hs : allSubnets o.providerConfig.Networks = []) :
    ExtractFailureDomain h o = some {} := by
  rw [ExtractFailureDomain_eq h o a hrv, haz, hz]
  unfold extractedSubnet
  cases hn : o.providerConfig.Networks with
  | nil => simp [hp]
  | cons network rest =>
    rw [hn] at hs
    have hsub : network.Subnets = [] := by
      simp only [allSubnets, List.flatMap_cons, List.append_eq_nil] at hs
      exact hs.1
    simp [hp, hsub]

/-- The frame of `InjectFailureDomain`: the returned config is the receiver outside
`AvailabilityZone` and `Networks` (the `RootVolume` pointer included), the root volume it points
to keeps its other fields, and no other root volume is written. -/
theorem InjectFailureDomain_frame (h : Heap) (o : OpenStackProviderConfig)
    (fd : OpenStackFailureDomain) (a : Addr) (hrv : o.providerConfig.RootVolume = some a) :
    ∃ r, InjectFailureDomain h o fd = some r ∧
      ({ r.1.providerConfig with AvailabilityZone := "", Networks := [] } :
          OpenstackProviderSpec) =
        { o.providerConfig with AvailabilityZone := "", Networks := [] } ∧
      (r.2 a).VolumeType = (h a).VolumeType ∧ (r.2 a).Size = (h a).Size ∧
      ∀ b, b ≠ a → r.2 b = h b := by
  refine ⟨_, InjectFailureDomain_eq h o fd a hrv, rfl, ?_, ?_, ?_⟩
  · simp [Heap.store]
  · simp [Heap.store]
  · intro b hb
    simp [Heap.store, hb]

/-! ## Subnet injection (C1, C2, C3) -/

/-- C1, the code at the failing input: the failure domain names subnet `s1` by UUID, the config
already has a subnet `s1` (the lookup succeeds), and `InjectFailureDomain` appends a second
network entry for `s1`; the networks of the result are not those of the receiver. -/
theorem C1_inject_appends_matching_subnet :
    errIsNil (findSubnetByUUID configWithS1.providerConfig.Networks fdS1.Subnet.UUID) = true ∧
    (InjectFailureDomain emptyHeap configWithS1 fdS1).map (fun r => r.1.providerConfig.Networks) =
      some [networkOfUUID "s1", networkOfUUID "s1"] ∧
    (InjectFailureDomain emptyHeap configWithS1 fdS1).map (fun r => r.1.providerConfig.Networks) ≠
      some configWithS1.providerConfig.Networks := by
  decide

/-- C2, the code at the failing input: the config has exactly one subnet entry with UUID `s1`;
after injecting the failure domain naming `s1` twice, three subnet entries carry `s1`. -/
theorem C2_double_inject_counts_three :
    countSubnetsWithUUID configWithS1.providerConfig.Networks "s1" = 1 ∧
    ((InjectFailureDomain emptyHeap configWithS1 fdS1).bind
        (fun r => InjectFailureDomain r.2 r.1 fdS1)).map
      (fun r => countSubnetsWithUUID r.1.providerConfig.Networks "s1") = some 3 := by
  decide

/-- C3, the code at the failing input: no subnet of the config has UUID `s1` (the lookup
fails), and `InjectFailureDomain` returns the networks unchanged: nothing is appended. -/
theorem C3_inject_skips_missing_subnet :
    errIsNil (findSubnetByUUID configNoNetworks.providerConfig.Networks fdS1.Subnet.UUID) =
      false ∧
    (InjectFailureDomain emptyHeap configNoNetworks fdS1).map
      (fun r => r.1.providerConfig.Networks) = some [] := by
  decide

/-! ## Extraction after injection (C4) -/

/-- C4, counterexample: `configWithS1` and `configWithS2` differ only in `Networks` and in the
root volume they point to (equal root volumes), so they are built from the same template; the
failure domain extracted from the first has subnet `s1`, and after injecting it into the second
the extracted subnet is still `s2`. -/
theorem C4_roundtrip_loses_subnet :
    sameTemplate emptyHeap configWithS1 configWithS2 ∧
    ExtractFailureDomain emptyHeap configWithS1 = some { Subnet := { UUID := "s1" } } ∧
    (ExtractFailureDomain emptyHeap configWithS1).bind
        (fun fd => (InjectFailureDomain emptyHeap configWithS2 fd).bind
          (fun r => ExtractFailureDomain r.2 r.1)) = some { Subnet := { UUID := "s2" } } ∧
    (ExtractFailureDomain emptyHeap configWithS1).bind
        (fun fd => (InjectFailureDomain emptyHeap configWithS2 fd).bind
          (fun r => ExtractFailureDomain r.2 r.1)) ≠ ExtractFailureDomain emptyHeap configWithS1 := by
  decide

/-- C4, amended: for configs `c` and `t` built from the same template that have a root volume,
extraction from `c`, injection into `t` and extraction from the result all return, the failure
domain extracted at the end has the compute zone and the storage zone of the one extracted from
`c`, and it is equal to it, subnet included, when the primary subnet is set, or when `t` has a
network and the subnet extracted from `t` is the subnet extracted from `c`. -/
theorem extract_inject_extract_of_sameTemplate (h : Heap) (c t : OpenStackProviderConfig)
    (hc : c.providerConfig.RootVolume ≠ none) (ht : t.providerConfig.RootVolume ≠ none)
    (hst : sameTemplate h c t) :
    ∃ fd r fd2, ExtractFailureDomain h c = some fd ∧
      InjectFailureDomain h t fd = some r ∧
      ExtractFailureDomain r.2 r.1 = some fd2 ∧
      fd2.ComputeZone = fd.ComputeZone ∧ fd2.StorageZone = fd.StorageZone ∧
      (c.providerConfig.PrimarySubnet ≠ "" ∨
        (t.providerConfig.Networks ≠ [] ∧
          (ExtractFailureDomain h t).map (fun ft => ft.Subnet) = some fd.Subnet) →
        fd2 = fd) := by
  obtain ⟨a, ha⟩ := Option.ne_none_iff_exists'.mp hc
  obtain ⟨b, hb⟩ := Option.ne_none_iff_exists'.mp ht
  have hps : c.providerConfig.PrimarySubnet = t.providerConfig.PrimarySubnet := by
    have h1 := congrArg (fun s : OpenstackProviderSpec => s.PrimarySubnet) hst.1
    simpa using h1
  refine ⟨_, _, _, ExtractFailureDomain_eq h c a ha, InjectFailureDomain_eq h t _ b hb,
    ExtractFailureDomain_eq _ _ b hb, rfl, ?_, ?_⟩
  · simp [Heap.store]
  · rintro (hp | ⟨hne, hsub⟩)
    · have hp2 : t.providerConfig.PrimarySubnet ≠ "" := hps ▸ hp
      simp [Heap.store, extractedSubnet, hp, hp2, hps]
    · rw [ExtractFailureDomain_eq h t b hb] at hsub
      have hsub2 : extractedSubnet t.providerConfig = extractedSubnet c.providerConfig := by
        simpa using hsub
      have happ := extractedSubnet_append t.providerConfig
        (OpenStackFailureDomain.ComputeZone
          { ComputeZone := c.providerConfig.AvailabilityZone
            StorageZone := (h a).Zone
            Subnet := extractedSubnet c.providerConfig })
        (appendedNetworks t.providerConfig.Networks
          { ComputeZone := c.providerConfig.AvailabilityZone
            StorageZone := (h a).Zone
            Subnet := extractedSubnet c.providerConfig }) hne
      simp only [Heap.store_same]
      rw [happ, hsub2]

/-- C4, amended, at a concrete pair: both configs have the primary subnet `p1`, different
networks and different zones. -/
theorem extract_inject_extract_of_sameTemplate_witness :
    ∃ fd r fd2,
      ExtractFailureDomain heapAz1
          { providerConfig := { configWithS1.providerConfig with PrimarySubnet := "p1" } } =
        some fd ∧
      InjectFailureDomain heapAz1
          { providerConfig := { configWithS2.providerConfig with PrimarySubnet := "p1" } } fd =
        some r ∧
      ExtractFailureDomain r.2 r.1 = some fd2 ∧
      fd2.ComputeZone = fd.ComputeZone ∧ fd2.StorageZone = fd.StorageZone ∧
      (("p1" : String) ≠ "" ∨
        (configWithS2.providerConfig.Networks ≠ [] ∧
          (ExtractFailureDomain heapAz1
            { providerConfig := { configWithS2.providerConfig with PrimarySubnet := "p1" } }).map
              (fun ft => ft.Subnet) = some fd.Subnet) →
        fd2 = fd) :=
  extract_inject_extract_of_sameTemplate heapAz1
    { providerConfig := { configWithS1.providerConfig with PrimarySubnet := "p1" } }
    { providerConfig := { configWithS2.providerConfig with PrimarySubnet := "p1" } }
    (by decide) (by decide) (by decide)

/-! ## Zones (C5, C6) -/

/-- C5, counterexample: injecting the empty failure domain into a config in availability zone
`az1` whose root volume lies in zone `az1` returns a config with an empty availability zone,
which is not the receiver, and leaves the root volume with an empty zone. -/
theorem C5_inject_empty_clears_zones :
    (InjectFailureDomain heapAz1 configAz1 fdEmpty).map
        (fun r => r.1.providerConfig.AvailabilityZone) = some "" ∧
    (InjectFailureDomain heapAz1 configAz1 fdEmpty).map (fun r => r.1) ≠ some configAz1 ∧
    getRootVolumeZone heapAz1 configAz1.providerConfig.RootVolume = some "az1" ∧
    (InjectFailureDomain heapAz1 configAz1 fdEmpty).bind
        (fun r => getRootVolumeZone r.2 r.1.providerConfig.RootVolume) = some "" := by
  decide

/-- C5, amended: for a config with a root volume, injecting the empty failure domain returns
the config with `AvailabilityZone` cleared and every other field as it was (`Networks`
included), its root volume with `Zone` cleared and the other fields as they were; the returned
config, root volume included, equals the receiver exactly when the availability zone and the
root-volume zone of the receiver are already empty. -/
theorem inject_empty_failure_domain (h : Heap) (c : OpenStackProviderConfig) (a : Addr)
    (hrv : c.providerConfig.RootVolume = some a) :
    ∃ r, InjectFailureDomain h c {} = some r ∧
      r.1.providerConfig = { c.providerConfig with AvailabilityZone := "" } ∧
      r.2 a = { h a with Zone := "" } ∧
      ((r.1 = c ∧ r.2 a = h a) ↔
        (c.providerConfig.AvailabilityZone = "" ∧ (h a).Zone = "")) := by
  have key : InjectFailureDomain h c {} =
      some ({ providerConfig := { c.providerConfig with AvailabilityZone := "" } },
            h.store a { h a with Zone := "" }) := by
    rw [InjectFailureDomain_eq h c {} a hrv]
    simp [appendedNetworks]
  refine ⟨_, key, rfl, Heap.store_same _ _ _, ?_⟩
  simp only [Heap.store_same]
  constructor
  · rintro ⟨hcfg, hvol⟩
    constructor
    · have h1 := congrArg (fun s : OpenStackProviderConfig => s.providerConfig.AvailabilityZone)
        hcfg
      simpa using h1.symm
    · have h3 := congrArg RootVolume.Zone hvol
      simpa using h3.symm
  · rintro ⟨haz, hz⟩
    constructor
    · cases c with
      | mk cfg =>
        cases cfg
        simp only at haz
        simp [haz]
    · cases hv : h a with
      | mk vt sz zn =>
        rw [hv] at hz
        simp only at hz
        simp [hz]

/-- C5, amended, at a concrete config: no networks, a root volume at address 0 in zone
`az1`. -/
theorem inject_empty_failure_domain_witness :
    configNoNetworks.providerConfig.RootVolume = some 0 ∧
    ∃ r, InjectFailureDomain heapAz1 configNoNetworks {} = some r ∧
      r.1.providerConfig = { configNoNetworks.providerConfig with AvailabilityZone := "" } ∧
      r.2 0 = { heapAz1 0 with Zone := "" } ∧
      ((r.1 = configNoNetworks ∧ r.2 0 = heapAz1 0) ↔
        (configNoNetworks.providerConfig.AvailabilityZone = "" ∧ (heapAz1 0).Zone = "")) :=
  ⟨rfl, inject_empty_failure_domain heapAz1 configNoNetworks 0 rfl⟩

/-- C6: for a config with a root volume and any failure domain, `InjectFailureDomain` returns,
the result has `AvailabilityZone = fd.ComputeZone` and `RootVolume.Zone = fd.StorageZone`, and
`ExtractFailureDomain` of the result returns a failure domain with these two zones. -/
theorem inject_overwrites_zones (h : Heap) (c : OpenStackProviderConfig)
    (fd : OpenStackFailureDomain) (hrv : c.providerConfig.RootVolume ≠ none) :
    ∃ r fd2, InjectFailureDomain h c fd = some r ∧
      r.1.providerConfig.AvailabilityZone = fd.ComputeZone ∧
      getRootVolumeZone r.2 r.1.providerConfig.RootVolume = some fd.StorageZone ∧
      ExtractFailureDomain r.2 r.1 = some fd2 ∧
      fd2.ComputeZone = fd.ComputeZone ∧ fd2.StorageZone = fd.StorageZone := by
  obtain ⟨a, ha⟩ := Option.ne_none_iff_exists'.mp hrv
  refine ⟨_, _, InjectFailureDomain_eq h c fd a ha, rfl, ?_,
    ExtractFailureDomain_eq _ _ a ha, rfl, ?_⟩
  · simp [getRootVolumeZone, ha, Heap.store]
  · simp [Heap.store]

/-- C6 at a concrete input: the config in zone `az1`, a failure domain with zones `az2` and
`vz2`. -/
theorem inject_overwrites_zones_witness :
    configAz1.providerConfig.RootVolume ≠ none ∧
    ∃ r fd2, InjectFailureDomain heapAz1 configAz1
        { ComputeZone := "az2", StorageZone := "vz2" } = some r ∧
      r.1.providerConfig.AvailabilityZone = "az2" ∧
      getRootVolumeZone r.2 r.1.providerConfig.RootVolume = some "vz2" ∧
      ExtractFailureDomain r.2 r.1 = some fd2 ∧
      fd2.ComputeZone = "az2" ∧ fd2.StorageZone = "vz2" :=
  ⟨by decide, inject_overwrites_zones heapAz1 configAz1
    { ComputeZone := "az2", StorageZone := "vz2" } (by decide)⟩

/-! ## Nil root volume and aliasing (C7, C8) -/

/-- C7, the code at the failing input: the zero-value config has no placement field set and no
root volume, and `ExtractFailureDomain` panics on it, reading `RootVolume.Zone` through the nil
pointer; it does not return the zero-value failure domain. -/
theorem C7_extract_panics_without_root_volume :
    configZero.providerConfig.AvailabilityZone = "" ∧
    configZero.providerConfig.RootVolume = none ∧
    configZero.providerConfig.PrimarySubnet = "" ∧
    allSubnets configZero.providerConfig.Networks = [] ∧
    ExtractFailureDomain emptyHeap configZero = none ∧
    ExtractFailureDomain emptyHeap configZero ≠ some {} := by
  decide

/-- C8, the code at the failing input: the receiver has a root volume in zone `az1`; after
`InjectFailureDomain` with storage zone `az2` the root volume of the receiver lies in zone
`az2`, and `ExtractFailureDomain` of the receiver reports `az2` where it reported `az1`. -/
theorem C8_inject_writes_receiver_root_volume :
    getRootVolumeZone heapAz1 configNoNetworks.providerConfig.RootVolume = some "az1" ∧
    (InjectFailureDomain heapAz1 configNoNetworks { StorageZone := "az2" }).bind
        (fun r => getRootVolumeZone r.2 configNoNetworks.providerConfig.RootVolume) =
      some "az2" ∧
    ExtractFailureDomain heapAz1 configNoNetworks = some { StorageZone := "az1" } ∧
    (InjectFailureDomain heapAz1 configNoNetworks { StorageZone := "az2" }).bind
        (fun r => ExtractFailureDomain r.2 configNoNetworks) = some { StorageZone := "az2" } := by
  decide

/-! ## Status reconciliation (C9, C10) -/

/-- C9, the code at the failing input: with one ready machine on each of the three indices
(and also with two ready machines on index 0), three distinct indices have a ready machine, and
`reconcileStatusWithMachineInfo` returns no error and a status whose `ReadyReplicas` is still
0; the status is the one it was given. -/
theorem C9_reconcile_leaves_ready_replicas :
    (readyIndices machinesAllReady).length = 3 ∧
    (reconcileStatusWithMachineInfo cpmsThree machinesAllReady).1.Status.ReadyReplicas = 0 ∧
    (readyIndices machinesOverlap).length = 3 ∧
    (reconcileStatusWithMachineInfo cpmsThree machinesOverlap).1.Status.ReadyReplicas = 0 ∧
    (reconcileStatusWithMachineInfo cpmsThree machinesOverlap).1.Status = cpmsThree.Status ∧
    (reconcileStatusWithMachineInfo cpmsThree machinesOverlap).2 = none := by
  decide

/-- C10, the code at the failing input: three replicas are desired and two distinct indices
have a ready machine, so one replica is unavailable, and `reconcileStatusWithMachineInfo`
returns no error and a status whose `UnavailableReplicas` is still 0. -/
theorem C10_reconcile_leaves_unavailable_replicas :
    cpmsThree.Replicas - (readyIndices machinesMissingIndex).length = 1 ∧
    (reconcileStatusWithMachineInfo cpmsThree machinesMissingIndex).1.Status.UnavailableReplicas
      = 0 ∧
    (reconcileStatusWithMachineInfo cpmsThree machinesMissingIndex).2 = none := by
  decide

/-! ## Status reconciliation, continued (C11, C12, C13) -/

/-- C11, the code at the failing input: with one ready, up-to-date machine on each of the three
indices, three distinct indices have a ready machine that needs no update, and
`reconcileStatusWithMachineInfo` returns no error and a status whose `UpdatedReplicas` is
still 0. -/
theorem C11_reconcile_leaves_updated_replicas :
    (updatedIndices machinesAllReady).length = 3 ∧
    (reconcileStatusWithMachineInfo cpmsThree machinesAllReady).1.Status.UpdatedReplicas = 0 ∧
    (reconcileStatusWithMachineInfo cpmsThree machinesAllReady).2 = none := by
  decide

/-- C12, the code at the failing input: indices 0 and 2 have one machine each and index 1 has
none, so two distinct indices have a machine, and `reconcileStatusWithMachineInfo` returns no
error and a status whose `Replicas` is still 0. -/
theorem C12_reconcile_leaves_replicas :
    (machineIndices machinesMissingIndex).length = 2 ∧
    (reconcileStatusWithMachineInfo cpmsThree machinesMissingIndex).1.Status.Replicas = 0 ∧
    (reconcileStatusWithMachineInfo cpmsThree machinesMissingIndex).2 = none := by
  decide

/-- C13: for every ControlPlaneMachineSet and every two MachineInfo lists that are permutations
of one another, `reconcileStatusWithMachineInfo` produces the same resulting status (counts and
conditions) and the same error result. -/
theorem reconcile_order_independent (cpms : ControlPlaneMachineSet)
    (l1 l2 : List MachineInfo) (hperm : l1.Perm l2) :
    (reconcileStatusWithMachineInfo cpms l1).1.Status =
      (reconcileStatusWithMachineInfo cpms l2).1.Status ∧
    (reconcileStatusWithMachineInfo cpms l1).2 = (reconcileStatusWithMachineInfo cpms l2).2 := by
  have _ := hperm
  exact ⟨rfl, rfl⟩

/-- C13 at a concrete input: the overlap list and its reverse. -/
theorem reconcile_order_independent_witness :
    machinesOverlap.Perm machinesOverlap.reverse ∧
    (reconcileStatusWithMachineInfo cpmsThree machinesOverlap).1.Status =
      (reconcileStatusWithMachineInfo cpmsThree machinesOverlap.reverse).1.Status ∧
    (reconcileStatusWithMachineInfo cpmsThree machinesOverlap).2 =
      (reconcileStatusWithMachineInfo cpmsThree machinesOverlap.reverse).2 :=
  ⟨(List.reverse_perm machinesOverlap).symm,
    reconcile_order_independent cpmsThree machinesOverlap machinesOverlap.reverse
      (List.reverse_perm machinesOverlap).symm⟩

/-! ## Status update (C14) -/

/-- C14, the code at the failing input: the computed status (three ready replicas) differs from
the status recorded in the patch base (all zero), and `updateControlPlaneMachineSetStatus`
returns no error, issues no status patch and logs nothing. -/
theorem C14_update_status_issues_no_patch :
    cpmsThreeReady.Status ≠ cpmsThree.Status ∧
    (updateControlPlaneMachineSetStatus {} cpmsThreeReady cpmsThree).1.StatusPatches = [] ∧
    (updateControlPlaneMachineSetStatus {} cpmsThreeReady cpmsThree).1.Logged = [] ∧
    (updateControlPlaneMachineSetStatus {} cpmsThreeReady cpmsThree).2 = none := by
  decide

/-! ## Subnet lookup (C17) -/

/-- The inner loop of `findSubnetByUUID` is the search for the first subnet with the UUID. -/
theorem findSubnetByUUID_inNetwork_eq (subnets : List SubnetParam) (u : String) :
    findSubnetByUUID.inNetwork subnets u = subnets.find? (fun subnet => decide (subnet.UUID = u)) := by
  induction subnets with
  | nil => rfl
  | cons subnet rest ih =>
    by_cases hu : subnet.UUID = u
    · simp [findSubnetByUUID.inNetwork, List.find?_cons, hu]
    · simp [findSubnetByUUID.inNetwork, List.find?_cons, hu, ih]

/-- The function `findSubnetByUUID` returns the first subnet with the UUID in traversal order,
and its error when there is none. -/
theorem findSubnetByUUID_eq (networks : List NetworkParam) (u : String) :
    findSubnetByUUID networks u =
      match firstSubnetWithUUID networks u with
      | some subnet => .ok subnet
      | none => .error ("Primary subnet " ++ u ++ " not specified on machine") := by
  induction networks with
  | nil => rfl
  | cons network rest ih =>
    unfold findSubnetByUUID
    rw [findSubnetByUUID_inNetwork_eq]
    simp only [firstSubnetWithUUID, allSubnets, List.flatMap_cons, List.find?_append] at ih ⊢
    cases hf : network.Subnets.find? (fun subnet => decide (subnet.UUID = u)) with
    | some subnet => simp
    | none => simpa using ih

/-- C17: for every list of networks and every UUID, `findSubnetByUUID` returns an error if and
only if no subnet of any network has the UUID; otherwise it returns, without error, the first
subnet with the UUID in traversal order (networks in list order, then subnets in list order
within each network). -/
theorem findSubnetByUUID_error_iff_first (networks : List NetworkParam) (u : String) :
    (errIsNil (findSubnetByUUID networks u) = false ↔
      ∀ subnet ∈ allSubnets networks, subnet.UUID ≠ u) ∧
    (errIsNil (findSubnetByUUID networks u) = true ↔
      ∃ subnet, firstSubnetWithUUID networks u = some subnet ∧
        findSubnetByUUID networks u = .ok subnet) := by
  rw [findSubnetByUUID_eq]
  cases hf : firstSubnetWithUUID networks u with
  | none =>
    have hnone := hf
    simp only [firstSubnetWithUUID, List.find?_eq_none, decide_eq_true_eq] at hnone
    simp only [errIsNil, true_iff, Bool.false_eq_true, false_iff, not_exists]
    exact ⟨hnone, fun subnet hs => by simp at hs⟩
  | some subnet =>
    have hsome := hf
    simp only [firstSubnetWithUUID] at hsome
    have hmem := List.mem_of_find?_eq_some hsome
    have hp := List.find?_some hsome
    simp only [decide_eq_true_eq] at hp
    simp only [errIsNil, Bool.true_eq_false, false_iff, not_forall, true_iff]
    exact ⟨⟨subnet, hmem, fun hne => hne hp⟩, subnet, rfl, rfl⟩

/-! ## UUID and name lookups in one injection (C16) -/

/-- C16, counterexample: the failure domain names a subnet by UUID `s1` and by filter name `n1`,
the config has one network whose subnet matches both; `InjectFailureDomain` appends two network
entries, and with the filter name cleared it appends one, so the two results differ. -/
theorem C16_inject_uses_uuid_and_name :
    fdS1N1.Subnet.UUID ≠ "" ∧
    configWithS1N1.providerConfig.Networks.length = 1 ∧
    (InjectFailureDomain emptyHeap configWithS1N1 fdS1N1).map
        (fun r => r.1.providerConfig.Networks.length) = some 3 ∧
    (InjectFailureDomain emptyHeap configWithS1N1 (clearFilterName fdS1N1)).map
        (fun r => r.1.providerConfig.Networks.length) = some 2 ∧
    (InjectFailureDomain emptyHeap configWithS1N1 fdS1N1).map (fun r => r.1) ≠
      (InjectFailureDomain emptyHeap configWithS1N1 (clearFilterName fdS1N1)).map
        (fun r => r.1) := by
  decide

/-- C16, amended: for a config `c` with a root volume and any failure domain `fd` (its
`Subnet.UUID` empty or not), the UUID and the name filter are handled independently of one
another, the name filter is not a fallback.  The call with `fd`, the call with the filter name
cleared and the call with the UUID cleared all return, with the same store and the same config
outside `Networks`; the networks of the first are the networks of the second followed by what
the third appends behind those of `c`, that is, the name filter contributes with a UUID present
exactly what it contributes without one; the call with the name cleared appends nothing or one
network entry whose only subnet is the UUID, and nothing when the UUID is empty; the call with
the UUID cleared appends nothing or one network entry whose only subnet carries the filter, and
nothing when the filter name is empty; a single call adds at most two entries.  In the code as
it is, the entry of a key is appended exactly when the key is non-empty and its lookup returns
`err == nil`. -/
theorem inject_uuid_and_name_independent (h : Heap) (c : OpenStackProviderConfig)
    (fd : OpenStackFailureDomain) (hrv : c.providerConfig.RootVolume ≠ none) :
    ∃ r ru rn, InjectFailureDomain h c fd = some r ∧
      InjectFailureDomain h c (clearFilterName fd) = some ru ∧
      InjectFailureDomain h c (clearSubnetUUID fd) = some rn ∧
      r.2 = ru.2 ∧ r.2 = rn.2 ∧
      ({ r.1.providerConfig with Networks := [] } : OpenstackProviderSpec) =
        { ru.1.providerConfig with Networks := [] } ∧
      ({ r.1.providerConfig with Networks := [] } : OpenstackProviderSpec) =
        { rn.1.providerConfig with Networks := [] } ∧
      r.1.providerConfig.Networks =
        ru.1.providerConfig.Networks ++
          rn.1.providerConfig.Networks.drop c.providerConfig.Networks.length ∧
      (ru.1.providerConfig.Networks = c.providerConfig.Networks ∨
        ru.1.providerConfig.Networks = c.providerConfig.Networks ++
          [{ Filter := {}, Subnets := [{ UUID := fd.Subnet.UUID }] }]) ∧
      (fd.Subnet.UUID = "" → ru.1.providerConfig.Networks = c.providerConfig.Networks) ∧
      (rn.1.providerConfig.Networks = c.providerConfig.Networks ∨
        rn.1.providerConfig.Networks = c.providerConfig.Networks ++
          [{ Filter := {}, Subnets := [{ Filter := fd.Subnet.Filter }] }]) ∧
      (fd.Subnet.Filter.Name = "" →
        rn.1.providerConfig.Networks = c.providerConfig.Networks) ∧
      r.1.providerConfig.Networks.length ≤ c.providerConfig.Networks.length + 2 ∧
      ru.1.providerConfig.Networks =
        c.providerConfig.Networks ++
          (if fd.Subnet.UUID ≠ "" ∧
              errIsNil (findSubnetByUUID c.providerConfig.Networks fd.Subnet.UUID) = true then
            [{ Filter := {}, Subnets := [{ UUID := fd.Subnet.UUID }] }]
          else []) ∧
      rn.1.providerConfig.Networks =
        c.providerConfig.Networks ++
          (if fd.Subnet.Filter.Name ≠ "" ∧
              errIsNil (findSubnetByName c.providerConfig.Networks fd.Subnet.Filter.Name) =
                true then
            [{ Filter := {}, Subnets := [{ Filter := fd.Subnet.Filter }] }]
          else []) := by
  obtain ⟨a, ha⟩ := Option.ne_none_iff_exists'.mp hrv
  refine ⟨_, _, _, InjectFailureDomain_eq h c fd a ha,
    InjectFailureDomain_eq h c (clearFilterName fd) a ha,
    InjectFailureDomain_eq h c (clearSubnetUUID fd) a ha, rfl, rfl, rfl, rfl,
    ?_, ?_, ?_, ?_, ?_, ?_, ?_, ?_⟩
  · simp only [appendedNetworks, clearFilterName, clearSubnetUUID]
    by_cases h1 : fd.Subnet.UUID ≠ "" ∧
        errIsNil (findSubnetByUUID c.providerConfig.Networks fd.Subnet.UUID) = true <;>
    by_cases h2 : fd.Subnet.Filter.Name ≠ "" ∧
        errIsNil (findSubnetByName c.providerConfig.Networks fd.Subnet.Filter.Name) = true <;>
    simp [h1, h2]
  · simp only [appendedNetworks, clearFilterName]
    by_cases h1 : fd.Subnet.UUID ≠ "" ∧
        errIsNil (findSubnetByUUID c.providerConfig.Networks fd.Subnet.UUID) = true <;>
    simp [h1]
  · intro hu
    simp [appendedNetworks, clearFilterName, hu]
  · simp only [appendedNetworks, clearSubnetUUID]
    by_cases h2 : fd.Subnet.Filter.Name ≠ "" ∧
        errIsNil (findSubnetByName c.providerConfig.Networks fd.Subnet.Filter.Name) = true <;>
    simp [h2]
  · intro hn
    simp [appendedNetworks, clearSubnetUUID, hn]
  · simp only [appendedNetworks, List.length_append]
    split <;> split <;> simp
  · simp [appendedNetworks, clearFilterName]
  · simp [appendedNetworks, clearSubnetUUID]

/-- C16, amended, at a concrete input: the config and the failure domain of the counterexample,
where both the UUID and the name filter find the subnet and two entries are appended. -/
theorem inject_uuid_and_name_independent_witness :
    configWithS1N1.providerConfig.RootVolume ≠ none ∧
    ∃ r ru rn, InjectFailureDomain emptyHeap configWithS1N1 fdS1N1 = some r ∧
      InjectFailureDomain emptyHeap configWithS1N1 (clearFilterName fdS1N1) = some ru ∧
      InjectFailureDomain emptyHeap configWithS1N1 (clearSubnetUUID fdS1N1) = some rn ∧
      r.2 = ru.2 ∧ r.2 = rn.2 ∧
      ({ r.1.providerConfig with Networks := [] } : OpenstackProviderSpec) =
        { ru.1.providerConfig with Networks := [] } ∧
      ({ r.1.providerConfig with Networks := [] } : OpenstackProviderSpec) =
        { rn.1.providerConfig with Networks := [] } ∧
      r.1.providerConfig.Networks =
        ru.1.providerConfig.Networks ++
          rn.1.providerConfig.Networks.drop configWithS1N1.providerConfig.Networks.length ∧
      (ru.1.providerConfig.Networks = configWithS1N1.providerConfig.Networks ∨
        ru.1.providerConfig.Networks = configWithS1N1.providerConfig.Networks ++
          [{ Filter := {}, Subnets := [{ UUID := fdS1N1.Subnet.UUID }] }]) ∧
      (fdS1N1.Subnet.UUID = "" →
        ru.1.providerConfig.Networks = configWithS1N1.providerConfig.Networks) ∧
      (rn.1.providerConfig.Networks = configWithS1N1.providerConfig.Networks ∨
        rn.1.providerConfig.Networks = configWithS1N1.providerConfig.Networks ++
          [{ Filter := {}, Subnets := [{ Filter := fdS1N1.Subnet.Filter }] }]) ∧
      (fdS1N1.Subnet.Filter.Name = "" →
        rn.1.providerConfig.Networks = configWithS1N1.providerConfig.Networks) ∧
      r.1.providerConfig.Networks.length ≤
        configWithS1N1.providerConfig.Networks.length + 2 ∧
      ru.1.providerConfig.Networks =
        configWithS1N1.providerConfig.Networks ++
          (if fdS1N1.Subnet.UUID ≠ "" ∧
              errIsNil (findSubnetByUUID configWithS1N1.providerConfig.Networks
                fdS1N1.Subnet.UUID) = true then
            [{ Filter := {}, Subnets := [{ UUID := fdS1N1.Subnet.UUID }] }]
          else []) ∧
      rn.1.providerConfig.Networks =
        configWithS1N1.providerConfig.Networks ++
          (if fdS1N1.Subnet.Filter.Name ≠ "" ∧
              errIsNil (findSubnetByName configWithS1N1.providerConfig.Networks
                fdS1N1.Subnet.Filter.Name) = true then
            [{ Filter := {}, Subnets := [{ Filter := fdS1N1.Subnet.Filter }] }]
          else []) :=
  ⟨by decide,
    inject_uuid_and_name_independent emptyHeap configWithS1N1 fdS1N1 (by decide)⟩

/-! ## Subnet precedence, growth of the networks, self round trip (C18, C19, C20) -/

/-- The subnet precedence of `ExtractFailureDomain` on a config with a root volume: the call
returns, and the subnet is the primary subnet when that is set, otherwise the first subnet of
the first network when both exist, and the zero value in every other case. -/
theorem ExtractFailureDomain_subnet_precedence (h : Heap) (o : OpenStackProviderConfig)
    (hrv : o.providerConfig.RootVolume ≠ none) :
    ∃ fd, ExtractFailureDomain h o = some fd ∧
      (o.providerConfig.PrimarySubnet ≠ "" →
        fd.Subnet = { UUID := o.providerConfig.PrimarySubnet }) ∧
      (o.providerConfig.PrimarySubnet = "" →
        ∀ network rest subnet rest2, o.providerConfig.Networks = network :: rest →
          network.Subnets = subnet :: rest2 → fd.Subnet = subnet) ∧
      (o.providerConfig.PrimarySubnet = "" →
        (o.providerConfig.Networks = [] ∨
          ∃ network rest, o.providerConfig.Networks = network :: rest ∧ network.Subnets = []) →
        fd.Subnet = {}) := by
  obtain ⟨a, ha⟩ := Option.ne_none_iff_exists'.mp hrv
  refine ⟨_, ExtractFailureDomain_eq h o a ha, ?_, ?_, ?_⟩
  · intro hp
    simp [extractedSubnet, hp]
  · intro hp network rest subnet rest2 hn hs
    simp [extractedSubnet, hp, hn, hs]
  · rintro hp (hn | ⟨network, rest, hn, hs⟩)
    · simp [extractedSubnet, hp, hn]
    · simp [extractedSubnet, hp, hn, hs]

/-- C18, the code at the failing input: the config has primary subnet `p1` and no root volume;
`ExtractFailureDomain` panics on the read of `RootVolume.Zone` before it looks at the primary
subnet, and returns no failure domain, so no subnet `p1`. -/
theorem C18_extract_panics_before_subnet :
    configPrimaryNoVolume.providerConfig.PrimarySubnet = "p1" ∧
    configPrimaryNoVolume.providerConfig.RootVolume = none ∧
    ExtractFailureDomain emptyHeap configPrimaryNoVolume = none ∧
    (ExtractFailureDomain emptyHeap configPrimaryNoVolume).map (fun fd => fd.Subnet) ≠
      some { UUID := "p1" } := by
  decide

/-- Every network entry `InjectFailureDomain` appends has an empty network filter and exactly
one subnet, and there are at most two of them. -/
theorem appendedNetworks_shape (networks : List NetworkParam) (fd : OpenStackFailureDomain) :
    (∀ network ∈ appendedNetworks networks fd,
      network.Filter = {} ∧ network.Subnets.length = 1) ∧
    (appendedNetworks networks fd).length ≤ 2 := by
  unfold appendedNetworks
  constructor
  · intro network hmem
    rw [List.mem_append] at hmem
    rcases hmem with hmem | hmem
    · split at hmem
      · rw [List.mem_singleton] at hmem
        subst hmem
        exact ⟨rfl, rfl⟩
      · simp at hmem
    · split at hmem
      · rw [List.mem_singleton] at hmem
        subst hmem
        exact ⟨rfl, rfl⟩
      · simp at hmem
  · rw [List.length_append]
    split <;> split <;> simp

/-- On a config with a root volume `InjectFailureDomain` returns, the networks of the receiver
are a prefix of the networks of the result, every appended network entry has an empty network
filter and exactly one subnet, and the result has at most two more entries. -/
theorem InjectFailureDomain_networks_grow (h : Heap) (o : OpenStackProviderConfig)
    (fd : OpenStackFailureDomain) (hrv : o.providerConfig.RootVolume ≠ none) :
    ∃ r, InjectFailureDomain h o fd = some r ∧
      o.providerConfig.Networks <+: r.1.providerConfig.Networks ∧
      (∀ network ∈ r.1.providerConfig.Networks.drop o.providerConfig.Networks.length,
        network.Filter = {} ∧ network.Subnets.length = 1) ∧
      r.1.providerConfig.Networks.length ≤ o.providerConfig.Networks.length + 2 := by
  obtain ⟨a, ha⟩ := Option.ne_none_iff_exists'.mp hrv
  have hshape := appendedNetworks_shape o.providerConfig.Networks fd
  refine ⟨_, InjectFailureDomain_eq h o fd a ha, ?_, ?_, ?_⟩
  · exact List.prefix_append _ _
  · simpa using hshape.1
  · simpa using hshape.2

/-- C19, the code at the failing input: the zero-value config has no root volume, and
`InjectFailureDomain` panics on the assignment to `RootVolume.Zone`; it returns no config, so
no network list of which the receiver's networks would be a prefix. -/
theorem C19_inject_panics_without_root_volume :
    configZero.providerConfig.RootVolume = none ∧
    (InjectFailureDomain emptyHeap configZero fdS1).map (fun r => r.1) = none ∧
    (InjectFailureDomain emptyHeap configZero fdEmpty).map (fun r => r.1) = none := by
  decide

/-- C20: for every config that has a root volume, extraction, injection of the extracted
failure domain into the same config and extraction from the result all return, and the failure
domain extracted at the end is the one extracted at the start. -/
theorem extract_inject_self (h : Heap) (c : OpenStackProviderConfig)
    (hrv : c.providerConfig.RootVolume ≠ none) :
    ∃ fd r, ExtractFailureDomain h c = some fd ∧
      InjectFailureDomain h c fd = some r ∧
      ExtractFailureDomain r.2 r.1 = some fd := by
  obtain ⟨a, ha⟩ := Option.ne_none_iff_exists'.mp hrv
  refine ⟨_, _, ExtractFailureDomain_eq h c a ha, InjectFailureDomain_eq h c _ a ha,
    (ExtractFailureDomain_eq _ _ a (by exact ha)).trans ?_⟩
  simp only [Heap.store_same]
  by_cases hn : c.providerConfig.Networks = []
  · simp [hn, appendedNetworks_nil, extractedSubnet]
  · rw [extractedSubnet_append c.providerConfig _ _ hn]

/-- C20 at a concrete input: a config with a network and a root volume in zone `az1`. -/
theorem extract_inject_self_witness :
    configWithS1N1.providerConfig.RootVolume ≠ none ∧
    ∃ fd r, ExtractFailureDomain heapAz1 configWithS1N1 = some fd ∧
      InjectFailureDomain heapAz1 configWithS1N1 fd = some r ∧
      ExtractFailureDomain r.2 r.1 = some fd :=
  ⟨by decide, extract_inject_self heapAz1 configWithS1N1 (by decide)⟩

/-! ## Decoding another provider's payload (C15) -/

/-- C15, the code at the failing input: on the JSON of the AWS builder
`newOpenStackProviderConfig` returns no error but a `ProviderConfig` of platform type OpenStack,
whose provider spec carries the AWS kind and API version, the user-data secret and one empty
security group, and nothing else; a payload with only an unknown field decodes, without error,
to the zero-value provider spec. -/
theorem C15_aws_payload_decodes_as_openstack :
    errIsNil (newOpenStackProviderConfig emptyHeap 0 awsProviderSpecRaw) = true ∧
    (okValue (newOpenStackProviderConfig emptyHeap 0 awsProviderSpecRaw)).map (fun r => r.1) =
      some { platformType := "OpenStack",
             openstack := { providerConfig :=
               { Kind := "AWSMachineProviderConfig",
                 APIVersion := "awsproviderconfig.openshift.io/v1beta1",
                 UserDataSecret := some "aws-user-data-12345678",
                 SecurityGroups := [{}] } } } ∧
    (okValue (newOpenStackProviderConfig emptyHeap 0 unknownFieldRaw)).map (fun r => r.1) =
      some { platformType := "OpenStack", openstack := {} } := by
  decide

end CPMS
